import Mathlib

/-!
Shallow embedding of the Parakeet transcription sidecar control plane
(`parakeet_sidecar/main.py`, `model_manager.py`, `messages.py`).

External collaborators (huggingface `snapshot_download`, `parakeet_mlx.from_pretrained`,
the model instance itself, `orjson`) are modelled as an explicit environment; exceptions
raised by Python code are modelled with `Except`; Python truthiness is modelled
explicitly where the source relies on it (`or` chains, `if value:` tests).
Machine floats carried opaquely by the protocol are modelled as `Rat` (the code never
performs arithmetic on them, it only stores, compares and forwards them).
-/

namespace Sidecar

/-- Precision modes accepted by `LoadModelRequest.precision` (a closed `Literal`). -/
inductive Precision
  | bf16
  | fp32
deriving DecidableEq, Repr

/-- Attention modes accepted by the requests (a closed `Literal`). -/
inductive Attention
  | full
  | «local»
deriving DecidableEq, Repr

/-- String rendering of a precision, as stored/reported by the Python code. -/
def precStr : Precision → String
  | Precision.bf16 => "bf16"
  | Precision.fp32 => "fp32"

/-- String rendering of an attention mode, as stored/reported by the Python code. -/
def attStr : Attention → String
  | Attention.full => "full"
  | Attention.«local» => "local"

/-- Python exceptions that the dispatcher distinguishes (`main.py` 94-126). -/
inductive PyExc
  | fileNotFound (msg : String)
  | validationError (msg : String)
  | runtimeError (msg : String)
  | other (msg : String)
deriving DecidableEq, Repr

/-- The `messages.LoadModelRequest` shape after pydantic validation. -/
structure LoadModelRequest where
  model_id : String
  local_path : Option String
  cache_dir : Option String
  precision : Precision
  attention : Attention
  local_attention_context : Int
  chunk_duration : Option Rat
  overlap_duration : Option Rat
  eager_unload : Bool
deriving DecidableEq, Repr

/-- The `messages.TranscribeRequest` shape after pydantic validation.  Note that
`local_attention_context` is validated as positive only on `LoadModelRequest`;
the transcribe variant carries an arbitrary optional integer. -/
structure TranscribeRequest where
  audio_path : String
  language : Option String
  translate_to_english : Bool
  prompt : Option String
  use_word_timestamps : Bool
  chunk_duration : Option Rat
  overlap_duration : Option Rat
  attention : Option Attention
  local_attention_context : Option Int
deriving DecidableEq, Repr

/-- Descriptor of an instantiated model object (the opaque `Any` handle returned by
`from_pretrained`): which attribute names are callable methods, which of those raise
when called, and whether `model.encoder.set_attention_model` exists / raises.
`mid` is an identity tag so distinct instantiations are distinguishable. -/
structure Model where
  mid : Nat
  transcribe_params : List String
  methods : List String
  raises : List (String × PyExc)
  has_attention_setter : Bool
  attention_setter_raises : Bool
deriving DecidableEq, Repr

/-- The `model_manager.LoadedModel` record (the single resource slot). -/
structure LoadedModel where
  model_id : String
  model_path : String
  precision : Precision
  attention : Attention
  chunk_duration : Rat
  overlap_duration : Rat
  inst : Model
  transcribe_params : List String
deriving DecidableEq, Repr

/-- Side effects on the external world that the manager can perform. -/
inductive Event
  | downloadEvent (repo : String)
  | instantiateEvent (path : String)
  | precisionEvent (name : String)
  | attentionEvent (mode : Attention)
  | closeEvent
  | invokeEvent (audio : String)
deriving DecidableEq, Repr

/-- Python truthiness of an optional string (`None` and `""` are falsy). -/
def optStrTruthy : Option String → Bool
  | Option.none => false
  | some s => !(s == "")

/-- Python `x or d` for an optional float (`None` and `0.0` are falsy). -/
def ratOr (x : Option Rat) (d : Rat) : Rat :=
  match x with
  | Option.none => d
  | some v => if v == 0 then d else v

/-- The reuse condition of `ModelManager.load` (model_manager.py 47-52):
slot occupied, `eager_unload` false, same identifier, and no (truthy) local path
or a local path equal to the loaded directory. -/
def reuseCond (cur : LoadedModel) (req : LoadModelRequest) : Bool :=
  !req.eager_unload && cur.model_id == req.model_id &&
    (!optStrTruthy req.local_path ||
      cur.model_path == (match req.local_path with | some p => p | Option.none => ""))

/-- Whether a load request hits the reuse path for a given slot. -/
def reuses (slot : Option LoadedModel) (req : LoadModelRequest) : Bool :=
  match slot with
  | some cur => reuseCond cur req
  | Option.none => false

/-! ## Dynamic Python values and the result normaliser (`_normalise_result`) -/

/-- A dynamically typed Python value, as the raw inference result may be shaped:
primitives, lists, mappings, or attribute-bearing objects (`__dict__` holders). -/
inductive PyVal
  | none
  | bool (b : Bool)
  | int (i : Int)
  | float (q : Rat)
  | str (s : String)
  | list (xs : List PyVal)
  | dict (kvs : List (String × PyVal))
  | obj (attrs : List (String × PyVal))
deriving Repr

/-- Python truthiness of a dynamic value. -/
def truthy : PyVal → Bool
  | PyVal.none => false
  | PyVal.bool b => b
  | PyVal.int i => !(i == 0)
  | PyVal.float q => !(q == 0)
  | PyVal.str s => !(s == "")
  | PyVal.list xs => !xs.isEmpty
  | PyVal.dict kvs => !kvs.isEmpty
  | PyVal.obj _ => true

/-- Python `a or b`. -/
def pyOr (a b : PyVal) : PyVal :=
  if truthy a then a else b

/-- Python `d.get(k)` on a mapping: key lookup with `None` default. -/
def dictGet (kvs : List (String × PyVal)) (k : String) : PyVal :=
  match kvs.lookup k with
  | some v => v
  | Option.none => PyVal.none

/-- Python `d.get(k, default)` on a mapping. -/
def dictGetD (kvs : List (String × PyVal)) (k : String) (d : PyVal) : PyVal :=
  match kvs.lookup k with
  | some v => v
  | Option.none => d

/-- Python `getattr(v, k, default)`.  Only attribute-bearing objects carry the attribute
names the normaliser looks up (`text`, `segments`, ... do not exist on builtins). -/
def getattrD (v : PyVal) (k : String) (d : PyVal) : PyVal :=
  match v with
  | PyVal.obj attrs =>
      match attrs.lookup k with
      | some x => x
      | Option.none => d
  | _ => d

/-- Python `str(v)` (rendering; the exact text of non-string primitives is
irrelevant to every claim, only totality matters). -/
def pyStr : PyVal → String
  | PyVal.none => "None"
  | PyVal.bool b => if b then "True" else "False"
  | PyVal.int i => toString i
  | PyVal.float q => toString q
  | PyVal.str s => s
  | PyVal.list _ => "[...]"
  | PyVal.dict _ => "\x7b...\x7d"
  | PyVal.obj _ => "<object>"

/-- Python iteration over a value: lists yield their items, strings their
characters, mappings their keys; other values raise `TypeError`. -/
def pyIter : PyVal → Except PyExc (List PyVal)
  | PyVal.list xs => Except.ok xs
  | PyVal.str s => Except.ok (s.data.map (fun c => PyVal.str (String.singleton c)))
  | PyVal.dict kvs => Except.ok (kvs.map (fun kv => PyVal.str kv.1))
  | _ => Except.error (PyExc.other "TypeError: object is not iterable")

/-- The top-level fields pulled out of the raw result (model_manager.py 232-241). -/
structure TopFields where
  text : PyVal
  language : PyVal
  duration : PyVal
  raw_segments : PyVal
deriving Repr

/-- Lines 232-241 of `_normalise_result`: mapping branch vs attribute branch. -/
def extract_top (result : PyVal) : TopFields :=
  match result with
  | PyVal.dict kvs =>
      { text := pyOr (dictGet kvs "text") (pyOr (dictGet kvs "transcription") (PyVal.str ""))
        language := dictGet kvs "language"
        duration := dictGet kvs "duration"
        raw_segments := pyOr (dictGet kvs "segments") (pyOr (dictGet kvs "sentences") (PyVal.list [])) }
  | _ =>
      { text := getattrD result "text" (PyVal.str "")
        language := getattrD result "language" PyVal.none
        duration := getattrD result "duration" PyVal.none
        raw_segments := pyOr (getattrD result "segments" PyVal.none)
          (getattrD result "sentences" (PyVal.list [])) }

/-- Raw per-segment fields (model_manager.py 244-253). -/
structure SegFields where
  seg_text : PyVal
  start : PyVal
  «end» : PyVal
  tokens : PyVal
deriving Repr

/-- Field-or-attribute lookup for one raw segment. -/
def extract_segment (segment : PyVal) : SegFields :=
  match segment with
  | PyVal.dict kvs =>
      ⟨dictGetD kvs "text" (PyVal.str ""), dictGet kvs "start", dictGet kvs "end",
        dictGet kvs "tokens"⟩
  | _ =>
      ⟨getattrD segment "text" (PyVal.str ""), getattrD segment "start" PyVal.none,
        getattrD segment "end" PyVal.none, getattrD segment "tokens" PyVal.none⟩

/-- One token record (model_manager.py 261-273): mappings pass through, objects with
`__dict__` are rebuilt from `text`/`start`/`end`/`duration`, anything else degrades
to a stringified `text`. -/
def token_to_payload (token : PyVal) : List (String × PyVal) :=
  match token with
  | PyVal.dict kvs => kvs
  | PyVal.obj attrs =>
      [("text", getattrD (PyVal.obj attrs) "text" (PyVal.str "")),
       ("start", getattrD (PyVal.obj attrs) "start" PyVal.none),
       ("end", getattrD (PyVal.obj attrs) "end" PyVal.none),
       ("duration", getattrD (PyVal.obj attrs) "duration" PyVal.none)]
  | _ => [("text", PyVal.str (pyStr token))]

/-- Lines 256-273: tokens are processed only when truthy and a list. -/
def process_tokens (tokens : PyVal) : Option (List (List (String × PyVal))) :=
  if truthy tokens then
    match tokens with
    | PyVal.list xs => some (xs.map token_to_payload)
    | _ => Option.none
  else Option.none

/-- The `messages.SegmentPayload` record (tokens entries keep their dynamic values). -/
structure SegmentPayload where
  text : String
  start : Option Rat
  «end» : Option Rat
  tokens : Option (List (List (String × PyVal)))
deriving Repr

/-- Pydantic validation of a `str` field (no implicit coercions from other types). -/
def as_str_field : PyVal → Except PyExc String
  | PyVal.str s => Except.ok s
  | _ => Except.error (PyExc.validationError "Input should be a valid string")

/-- Numeric value of a digit list, most significant digit first. -/
def digitsVal (cs : List Char) : Nat :=
  cs.foldl (fun acc c => acc * 10 + (c.toNat - '0'.toNat)) 0

/-- Python `float(s)` for plain decimal literals: an optional sign, then digits
with an optional decimal point (at least one digit overall).  Exotic inputs the
library would also coerce (exponents, infinities, surrounding whitespace) are
not modelled, so this accepts only strings the library coerces, never more. -/
def decimalRat? (s : String) : Option Rat :=
  let signed : Bool × List Char :=
    match s.data with
    | '-' :: t => (true, t)
    | '+' :: t => (false, t)
    | t => (false, t)
  let intPart := signed.2.takeWhile Char.isDigit
  let rest := signed.2.dropWhile Char.isDigit
  let q? : Option Rat :=
    match rest with
    | [] => if intPart.isEmpty then Option.none else some ((digitsVal intPart : Nat) : Rat)
    | '.' :: frac =>
        if frac.all Char.isDigit && (!intPart.isEmpty || !frac.isEmpty) then
          some (((digitsVal (intPart ++ frac) : Nat) : Rat) / ((10 : Rat) ^ frac.length))
        else Option.none
    | _ => Option.none
  match q? with
  | some q => some (if signed.1 then -q else q)
  | Option.none => Option.none

/-- Pydantic (v2, lax mode) validation of an `Optional[float]` field: `None` and
floats pass through, ints coerce to floats, and numeric strings are parsed
(`decimalRat?`); everything else — bools included — is rejected. -/
def as_float_field : PyVal → Except PyExc (Option Rat)
  | PyVal.none => Except.ok Option.none
  | PyVal.float q => Except.ok (some q)
  | PyVal.int i => Except.ok (some (i : Rat))
  | PyVal.str s =>
      match decimalRat? s with
      | some q => Except.ok (some q)
      | Option.none => Except.error (PyExc.validationError "Input should be a valid number")
  | _ => Except.error (PyExc.validationError "Input should be a valid number")

/-- Normalising one raw segment: extract, process tokens, build `SegmentPayload`
(whose pydantic validation can raise on ill-typed `text`/`start`/`end`). -/
def normalise_segment (segment : PyVal) : Except PyExc SegmentPayload :=
  let f := extract_segment segment
  match as_str_field f.seg_text, as_float_field f.start, as_float_field f.«end» with
  | Except.ok t, Except.ok s, Except.ok e =>
      Except.ok ⟨t, s, e, process_tokens f.tokens⟩
  | Except.error e, _, _ => Except.error e
  | _, Except.error e, _ => Except.error e
  | _, _, Except.error e => Except.error e

/-- The Python `for` loop over segments: stops at the first raised exception. -/
def mapMExcept (f : α → Except ε β) : List α → Except ε (List β)
  | [] => Except.ok []
  | x :: xs =>
      match f x with
      | Except.error e => Except.error e
      | Except.ok y =>
          match mapMExcept f xs with
          | Except.error e => Except.error e
          | Except.ok ys => Except.ok (y :: ys)

/-- The canonical payload assembled by `_normalise_result` (text, language and
duration stay dynamic here; they are validated by `TranscriptionResponse`). -/
structure Canon where
  text : PyVal
  segments : List SegmentPayload
  language : PyVal
  duration : PyVal
deriving Repr

/-- Embeds `ModelManager._normalise_result` (model_manager.py 226-289). -/
def normalise_result (result : PyVal) : Except PyExc Canon :=
  let top := extract_top result
  let seq := if truthy top.raw_segments then top.raw_segments else PyVal.list []
  match pyIter seq with
  | Except.error e => Except.error e
  | Except.ok items =>
      match mapMExcept normalise_segment items with
      | Except.error e => Except.error e
      | Except.ok segs => Except.ok ⟨top.text, segs, top.language, top.duration⟩

/-- Value shapes the `str` field validation accepts. -/
def str_ok : PyVal → Bool
  | PyVal.str _ => true
  | _ => false

/-- Value shapes the `Optional[float]` field validation accepts: missing values,
numbers, and (plain decimal) numeric strings. -/
def float_ok : PyVal → Bool
  | PyVal.none => true
  | PyVal.float _ => true
  | PyVal.int _ => true
  | PyVal.str s => (decimalRat? s).isSome
  | _ => false

/-- Shape condition: one raw segment has a string `text` (or none, the default is a
string) and numeric-or-numeric-string-or-missing `start`/`end`. -/
def seg_ok (segment : PyVal) : Bool :=
  let f := extract_segment segment
  str_ok f.seg_text && float_ok f.start && float_ok f.«end»

/-- Shape condition under which the normaliser completes: the resolved segments
value is iterable (or falsy, degrading to the empty sequence) and every yielded
segment satisfies `seg_ok`. -/
def wellShaped (result : PyVal) : Bool :=
  let top := extract_top result
  let seq := if truthy top.raw_segments then top.raw_segments else PyVal.list []
  match pyIter seq with
  | Except.error _ => false
  | Except.ok items => items.all seg_ok

/-! ## The external environment and the model lifecycle manager -/

/-- Argument values passed to the model's transcribe entrypoint. -/
inductive ArgVal
  | str (s : String)
  | bool (b : Bool)
  | rat (q : Rat)
  | int (i : Int)
  | att (a : Attention)
deriving DecidableEq, Repr

/-- The external world: filesystem, hub download, model instantiation and the raw
value returned by the model's inference entrypoint.  All are pure functions of
their inputs, mirroring that the manager treats them as opaque collaborators. -/
structure Env where
  path_exists : String → Bool
  snapshot_download : String → Option String → String
  from_pretrained : String → Model
  invoke_result : String → List (String × ArgVal) → PyVal

/-- Outcome of `ModelManager.load`: the returned-or-raised value, the slot after
the call, and the external side effects performed, in order. -/
structure LoadOutcome where
  result : Except PyExc LoadedModel
  slot : Option LoadedModel
  events : List Event
deriving Repr

/-- Embeds `ModelManager._resolve_model_path` (model_manager.py 137-151): a truthy
`local_path` must exist on disk; otherwise delegate to `snapshot_download`
(with a truthy `cache_dir` forwarded). -/
def resolve_model_path (env : Env) (req : LoadModelRequest) : Except PyExc String × List Event :=
  match req.local_path with
  | some p =>
      if p == "" then
        (Except.ok (env.snapshot_download req.model_id (cacheOf req)), [Event.downloadEvent req.model_id])
      else if env.path_exists p then (Except.ok p, [])
      else (Except.error (PyExc.fileNotFound ("local_path does not exist: " ++ p)), [])
  | Option.none =>
      (Except.ok (env.snapshot_download req.model_id (cacheOf req)), [Event.downloadEvent req.model_id])
where
  /-- Python `Path(request.cache_dir) if request.cache_dir else None` (falsy strings dropped). -/
  cacheOf (req : LoadModelRequest) : Option String :=
    match req.cache_dir with
    | some c => if c == "" then Option.none else some c
    | Option.none => Option.none

/-- Method names tried by `_configure_precision`, in order. -/
def precision_method_names : Precision → List String
  | Precision.bf16 => ["to_bf16", "to_bfloat16"]
  | Precision.fp32 => ["to_float32", "to_fp32"]

/-- Embeds `ModelManager._configure_precision` (model_manager.py 154-165): call the first
callable method of the map; there is no `try`/`except`, so a raising method
propagates out of `load`. -/
def configure_precision (m : Model) (p : Precision) : Except PyExc Unit × List Event :=
  match (precision_method_names p).find? (fun n => m.methods.contains n) with
  | Option.none => (Except.ok (), [])
  | some n =>
      match m.raises.lookup n with
      | some exc => (Except.error exc, [Event.precisionEvent n])
      | Option.none => (Except.ok (), [Event.precisionEvent n])

/-- The body of `_configure_attention` before its `try`/`except`: if the encoder
setter exists it is called (for both modes) and may raise. -/
def configure_attention_attempt (m : Model) (mode : Attention) : Except PyExc (List Event) :=
  if m.has_attention_setter then
    if m.attention_setter_raises then
      Except.error (PyExc.other "attention setter raised")
    else Except.ok [Event.attentionEvent mode]
  else Except.ok []

/-- Embeds `ModelManager._configure_attention` (model_manager.py 168-182): the whole body
is wrapped in `try`/`except Exception`, so failures are swallowed. -/
def configure_attention (m : Model) (mode : Attention) : List Event :=
  match configure_attention_attempt m mode with
  | Except.ok evs => evs
  | Except.error _ => []

/-- The fresh `LoadedModel` constructed on the non-reuse path
(model_manager.py 74-83); `or` defaults follow Python truthiness. -/
def mkFresh (req : LoadModelRequest) (path : String) (m : Model) : LoadedModel :=
  { model_id := req.model_id
    model_path := path
    precision := req.precision
    attention := req.attention
    chunk_duration := ratOr req.chunk_duration 120
    overlap_duration := ratOr req.overlap_duration 15
    inst := m
    transcribe_params := m.transcribe_params }

/-- The non-reuse path of `ModelManager.load`: resolve, instantiate, configure
precision (may raise), configure attention (absorbed), store the fresh state. -/
def load_fresh (env : Env) (slot : Option LoadedModel) (req : LoadModelRequest) : LoadOutcome :=
  let r := resolve_model_path env req
  match r.1 with
  | Except.error e => ⟨Except.error e, slot, r.2⟩
  | Except.ok path =>
      let m := env.from_pretrained path
      let evs2 := r.2 ++ [Event.instantiateEvent path]
      let pr := configure_precision m req.precision
      match pr.1 with
      | Except.error e => ⟨Except.error e, slot, evs2 ++ pr.2⟩
      | Except.ok _ =>
          let st := mkFresh req path m
          ⟨Except.ok st, some st, evs2 ++ pr.2 ++ configure_attention m req.attention⟩

/-- Embeds `ModelManager.load` (model_manager.py 44-86). -/
def load (env : Env) (slot : Option LoadedModel) (req : LoadModelRequest) : LoadOutcome :=
  match slot with
  | some cur =>
      if reuseCond cur req then ⟨Except.ok cur, some cur, []⟩
      else load_fresh env (some cur) req
  | Option.none => load_fresh env Option.none req

/-- Outcome of `ModelManager.unload`. -/
structure UnloadOutcome where
  result : Except PyExc Unit
  slot : Option LoadedModel
  events : List Event
deriving Repr

/-- Embeds `ModelManager.unload` (model_manager.py 89-100): no-op on an empty slot;
otherwise call a callable `close` inside `try`/`finally` — the slot is always
cleared, but an exception raised by `close` propagates after the `finally`. -/
def unload (slot : Option LoadedModel) : UnloadOutcome :=
  match slot with
  | Option.none => ⟨Except.ok (), Option.none, []⟩
  | some cur =>
      if cur.inst.methods.contains "close" then
        match cur.inst.raises.lookup "close" with
        | some exc => ⟨Except.error exc, Option.none, [Event.closeEvent]⟩
        | Option.none => ⟨Except.ok (), Option.none, [Event.closeEvent]⟩
      else ⟨Except.ok (), Option.none, []⟩

/-- The descriptor returned by `ModelManager.status` (model_manager.py 103-117). -/
structure StatusFields where
  loaded_model : Option String
  model_path : Option String
  precision : Option String
  attention : Option String
deriving DecidableEq, Repr

/-- Embeds `ModelManager.status`. -/
def status : Option LoadedModel → StatusFields
  | Option.none => ⟨Option.none, Option.none, Option.none, Option.none⟩
  | some cur =>
      ⟨some cur.model_id, some cur.model_path, some (precStr cur.precision),
        some (attStr cur.attention)⟩

/-! ## Capability-aware parameter builder (`_build_kwargs`) -/

/-- Python `merged[key] = value` on a dict: replace the value in place if the key
is present, else append the pair (dicts preserve insertion order). -/
def insertArg : List (String × ArgVal) → String → ArgVal → List (String × ArgVal)
  | [], k, v => [(k, v)]
  | (k1, v1) :: t, k, v =>
      if k1 == k then (k1, v) :: t else (k1, v1) :: insertArg t k v

/-- Python `if key in params: merged[key] = value`. -/
def insert_if_declared (params : List String) (m : List (String × ArgVal)) (k : String)
    (v : ArgVal) : List (String × ArgVal) :=
  if params.contains k then insertArg m k v else m

/-- Python `if value is None: continue; if key in params: merged[key] = value`. -/
def insert_opt (params : List String) (m : List (String × ArgVal)) (k : String)
    (v : Option ArgVal) : List (String × ArgVal) :=
  match v with
  | some x => insert_if_declared params m k x
  | Option.none => m

/-- Python `context = request.local_attention_context or None`: `0` degrades to `None`,
every other integer (negative included) passes through. -/
def truthy_ctx : Option Int → Option Int
  | Option.none => Option.none
  | some c => if c == 0 then Option.none else some c

/-- Embeds `ModelManager._build_kwargs` (model_manager.py 185-223), preserving the
source's insertion order: load-time defaults, attention overlay, request
overrides in the order of the `overrides` dict. -/
def build_kwargs (cur : LoadedModel) (req : TranscribeRequest) : List (String × ArgVal) :=
  let params := cur.transcribe_params
  let merged : List (String × ArgVal) := []
  let merged := insert_if_declared params merged "chunk_duration" (ArgVal.rat cur.chunk_duration)
  let merged := insert_if_declared params merged "overlap_duration" (ArgVal.rat cur.overlap_duration)
  let attention_mode := match req.attention with
    | some a => a
    | Option.none => cur.attention
  let context := truthy_ctx req.local_attention_context
  let merged := insert_if_declared params merged "attention" (ArgVal.att attention_mode)
  let merged := insert_opt params merged "local_attention_context" (context.map ArgVal.int)
  let merged := insert_opt params merged "language" (req.language.map ArgVal.str)
  let merged := insert_if_declared params merged "translate_to_english" (ArgVal.bool req.translate_to_english)
  let merged := insert_opt params merged "prompt" (req.prompt.map ArgVal.str)
  let merged := insert_if_declared params merged "use_word_timestamps" (ArgVal.bool req.use_word_timestamps)
  let merged := insert_opt params merged "chunk_duration" (req.chunk_duration.map ArgVal.rat)
  let merged := insert_opt params merged "overlap_duration" (req.overlap_duration.map ArgVal.rat)
  merged

/-! ## Responses, transcribe, and the command dispatcher (`main.py`) -/

/-- The `messages.Response` union. -/
inductive Response
  | okResp (command : String) (payload : List (String × String))
  | errorResp (code : String) (message : String) (details : Option String)
  | statusResp (fields : StatusFields)
  | transcriptionResp (text : String) (segments : List SegmentPayload)
      (language : Option String) (duration : Option Rat)
deriving Repr

/-- The dispatcher's exception-to-response mapping (main.py 94-126). -/
def exc_response : PyExc → Response
  | PyExc.fileNotFound m => Response.errorResp "file_not_found" m Option.none
  | PyExc.validationError m =>
      Response.errorResp "validation_error" "Invalid command payload" (some m)
  | PyExc.runtimeError m => Response.errorResp "runtime_error" m Option.none
  | PyExc.other m => Response.errorResp "internal_error" m Option.none

/-- Pydantic validation of an `Optional[str]` response field. -/
def as_opt_str_field : PyVal → Except PyExc (Option String)
  | PyVal.none => Except.ok Option.none
  | PyVal.str s => Except.ok (some s)
  | _ => Except.error (PyExc.validationError "Input should be a valid string")

/-- Python `TranscriptionResponse(**payload)` (pydantic validation of the canonical map). -/
def mkTranscriptionResponse (c : Canon) : Except PyExc Response :=
  match as_str_field c.text, as_opt_str_field c.language, as_float_field c.duration with
  | Except.ok t, Except.ok lang, Except.ok dur =>
      Except.ok (Response.transcriptionResp t c.segments lang dur)
  | Except.error e, _, _ => Except.error e
  | _, Except.error e, _ => Except.error e
  | _, _, Except.error e => Except.error e

/-- Outcome of `ModelManager.transcribe`; the slot is never mutated by it. -/
structure TranscribeOutcome where
  result : Except PyExc Response
  events : List Event
deriving Repr

/-- Embeds `ModelManager.transcribe` (model_manager.py 120-134): `RuntimeError` on an
empty slot, `FileNotFoundError` on a missing audio path, else build the kwargs,
invoke the entrypoint and normalise the raw result. -/
def transcribe (env : Env) (slot : Option LoadedModel) (req : TranscribeRequest) :
    TranscribeOutcome :=
  match slot with
  | Option.none => ⟨Except.error (PyExc.runtimeError "No Parakeet model loaded"), []⟩
  | some cur =>
      if env.path_exists req.audio_path then
        let args := build_kwargs cur req
        let raw := env.invoke_result req.audio_path args
        match normalise_result raw with
        | Except.error e => ⟨Except.error e, [Event.invokeEvent req.audio_path]⟩
        | Except.ok canon =>
            match mkTranscriptionResponse canon with
            | Except.error e => ⟨Except.error e, [Event.invokeEvent req.audio_path]⟩
            | Except.ok resp => ⟨Except.ok resp, [Event.invokeEvent req.audio_path]⟩
      else
        ⟨Except.error (PyExc.fileNotFound ("Audio path not found: " ++ req.audio_path)), []⟩

/-- The `messages.CommandRequest` union. -/
inductive CommandRequest
  | loadCmd (r : LoadModelRequest)
  | unloadCmd
  | transcribeCmd (r : TranscribeRequest)
  | statusCmd
  | shutdownCmd
deriving Repr

/-- An element of the dispatcher's observable behaviour: an external side effect
or a response handed to `write_response`, in program order. -/
inductive Action
  | ev (e : Event)
  | emit (r : Response)
deriving Repr

/-- Side effects followed by exactly one emitted response (every branch of
`handle_command` performs its work and then calls `write_response` once). -/
def respond (evs : List Event) (r : Response) : List Action :=
  evs.map Action.ev ++ [Action.emit r]

/-- The responses contained in a trace, in order. -/
def emits : List Action → List Response
  | [] => []
  | Action.ev _ :: rest => emits rest
  | Action.emit r :: rest => r :: emits rest

/-- Outcome of `handle_command`: trace, slot after the call, and whether
`SystemExit` was raised (true only for a successful shutdown). -/
structure HandleOutcome where
  actions : List Action
  slot : Option LoadedModel
  exit : Bool
deriving Repr

/-- Embeds `main.handle_command` (main.py 58-126): route to the manager, emit exactly one
response, map raised exceptions through `exc_response`.  The `ok` payload for
`load_model` echoes the request fields. -/
def handle_command (env : Env) (slot : Option LoadedModel) (cmd : CommandRequest) :
    HandleOutcome :=
  match cmd with
  | CommandRequest.loadCmd req =>
      let out := load env slot req
      match out.result with
      | Except.ok _ =>
          ⟨respond out.events (Response.okResp "load_model"
              [("model_id", req.model_id), ("precision", precStr req.precision),
               ("attention", attStr req.attention)]),
            out.slot, false⟩
      | Except.error e => ⟨respond out.events (exc_response e), out.slot, false⟩
  | CommandRequest.unloadCmd =>
      let out := unload slot
      match out.result with
      | Except.ok _ => ⟨respond out.events (Response.okResp "unload_model" []), out.slot, false⟩
      | Except.error e => ⟨respond out.events (exc_response e), out.slot, false⟩
  | CommandRequest.transcribeCmd req =>
      let out := transcribe env slot req
      match out.result with
      | Except.ok r => ⟨respond out.events r, slot, false⟩
      | Except.error e => ⟨respond out.events (exc_response e), slot, false⟩
  | CommandRequest.statusCmd =>
      ⟨respond [] (Response.statusResp (status slot)), slot, false⟩
  | CommandRequest.shutdownCmd =>
      let out := unload slot
      match out.result with
      | Except.ok _ => ⟨respond out.events (Response.okResp "shutdown" []), out.slot, true⟩
      | Except.error e => ⟨respond out.events (exc_response e), out.slot, false⟩

/-! ## Codec layer (`write_response`) and the read loop (`event_loop`) -/

/-- The serialisation collaborator (`orjson.dumps` + `_pydantic_default`), as a
black box: which response values fail to serialise, and the line produced. -/
structure Ser where
  fails : Response → Bool
  render : Response → String

/-- The fixed substitute emitted when serialising a response raises (main.py 42-45). -/
def fallback_response : Response :=
  Response.errorResp "serialisation_error" "Internal serialisation error" Option.none

/-- Embeds `main.write_response` (main.py 37-47): one line per call; if serialising the
given response raises, serialise and write the fixed fallback instead.  (If even
the fallback failed to serialise the exception would escape; the fixed fallback
response is serialisable, which theorems state as a hypothesis.) -/
def write_response (ser : Ser) (r : Response) : List String :=
  if ser.fails r then
    if ser.fails fallback_response then [] else [ser.render fallback_response]
  else [ser.render r]

/-- Result of decoding one stripped input line (`orjson.loads` + `parse_command`
with the dispatcher's `except` clauses, main.py 135-155). -/
inductive ParseOutcome
  | okCmd (c : CommandRequest)
  | validationFailure (msg : String)
  | parseFailure (msg : String)
deriving Repr

/-- The decode collaborator: what one stripped line parses to. -/
structure Decoder where
  parse : String → ParseOutcome

/-- Python `str.strip()`: drop whitespace from both ends. -/
def pyStrip (s : String) : String :=
  String.mk (((s.data.dropWhile Char.isWhitespace).reverse.dropWhile
    Char.isWhitespace).reverse)

/-- Outcome of processing one raw input line. -/
structure LineOutcome where
  lines : List String
  slot : Option LoadedModel
  exit : Bool
deriving Repr

/-- One iteration of `main.event_loop` (main.py 129-157): strip, skip blanks,
decode (emitting `validation_error`/`parse_error` on failure), dispatch. -/
def process_line (env : Env) (dec : Decoder) (ser : Ser) (slot : Option LoadedModel)
    (raw : String) : LineOutcome :=
  let line := pyStrip raw
  if line == "" then ⟨[], slot, false⟩
  else
    match dec.parse line with
    | ParseOutcome.parseFailure m =>
        ⟨write_response ser (Response.errorResp "parse_error" m Option.none), slot, false⟩
    | ParseOutcome.validationFailure m =>
        ⟨write_response ser (Response.errorResp "validation_error" "Invalid payload" (some m)),
          slot, false⟩
    | ParseOutcome.okCmd cmd =>
        let out := handle_command env slot cmd
        ⟨(emits out.actions).foldr (fun r acc => write_response ser r ++ acc) [],
          out.slot, out.exit⟩

/-- Embeds `main.event_loop` over a finite input: stops when a command raised
`SystemExit` (successful shutdown). -/
def event_loop (env : Env) (dec : Decoder) (ser : Ser) :
    Option LoadedModel → List String → List String × Option LoadedModel
  | slot, [] => ([], slot)
  | slot, raw :: rest =>
      let out := process_line env dec ser slot raw
      if out.exit then (out.lines, out.slot)
      else
        let nxt := event_loop env dec ser out.slot rest
        (out.lines ++ nxt.1, nxt.2)

/-- Outcome of the signal path. -/
structure SignalOutcome where
  actions : List Action
  slot : Option LoadedModel
  exitOk : Bool
deriving Repr

/-- The external-signal shutdown path (main.py 160-179): `_graceful_shutdown`
only logs and raises `SystemExit(0)`; `run` catches `SystemExit` and returns.
No unload is performed and no response is written — the trace is empty, the slot
is left as it was, and the process exits with success status. -/
def graceful_shutdown_signal (slot : Option LoadedModel) : SignalOutcome :=
  ⟨[], slot, true⟩

/-! ## Auxiliary definitions for the theorems -/

/-- Whether a fallible call returned normally. -/
def exOk : Except ε α → Bool
  | Except.ok _ => true
  | Except.error _ => false

/-- Field-or-attribute lookup used to phrase the spec's uniform extraction rule
(`None` default for either shape). -/
def field_lookup (result : PyVal) (k : String) : PyVal :=
  match result with
  | PyVal.dict kvs => dictGet kvs k
  | _ => getattrD result k PyVal.none

/-- Modelled from the spec: the uniform text rule — `text`, falling back to
`transcription`, falling back to the empty string, for either shape. -/
def spec_text (result : PyVal) : PyVal :=
  pyOr (field_lookup result "text") (pyOr (field_lookup result "transcription") (PyVal.str ""))

/-- Modelled from the spec: the uniform segments rule — `segments`, falling back
to `sentences`, falling back to an empty sequence, for either shape. -/
def spec_raw_segments (result : PyVal) : PyVal :=
  pyOr (field_lookup result "segments") (pyOr (field_lookup result "sentences") (PyVal.list []))

/-- The segments value the normaliser actually iterates (after `or []`). -/
def resolved_segments (result : PyVal) : PyVal :=
  let rs := (extract_top result).raw_segments
  if truthy rs then rs else PyVal.list []

/-- The iterated segments value under the spec's uniform rule. -/
def spec_resolved_segments (result : PyVal) : PyVal :=
  let rs := spec_raw_segments result
  if truthy rs then rs else PyVal.list []

/-- A model instance whose attention setter raises when called. -/
def withSetterRaises (m : Model) : Model :=
  { m with attention_setter_raises := true }

/-- The same environment, but every instantiated model has a raising attention
setter (used to show attention-configuration failures are absorbed). -/
def flipEnv (env : Env) : Env :=
  { env with from_pretrained := fun p => withSetterRaises (env.from_pretrained p) }

/-! ## Concrete instances used by witnesses and counterexamples -/

/-- A well-behaved model declaring every tunable parameter. -/
def model0 : Model :=
  { mid := 0
    transcribe_params := ["chunk_duration", "overlap_duration", "attention",
      "local_attention_context", "language", "translate_to_english", "prompt",
      "use_word_timestamps"]
    methods := ["close"]
    raises := []
    has_attention_setter := true
    attention_setter_raises := false }

/-- A benign environment: every path exists, downloads resolve to `/models/m`. -/
def env0 : Env :=
  { path_exists := fun _ => true
    snapshot_download := fun _ _ => "/models/m"
    from_pretrained := fun _ => model0
    invoke_result := fun _ _ => PyVal.dict [] }

/-- A plain load request for model `m`. -/
def req0 : LoadModelRequest :=
  { model_id := "m", local_path := Option.none, cache_dir := Option.none
    precision := Precision.bf16, attention := Attention.full
    local_attention_context := 256, chunk_duration := some 120
    overlap_duration := some 15, eager_unload := false }

/-- The state `req0` produces under `env0`. -/
def st0 : LoadedModel := mkFresh req0 "/models/m" model0

/-- The same load request but for `fp32` precision. -/
def req2 : LoadModelRequest := { req0 with precision := Precision.fp32 }

/-- A model whose `to_bf16` and `close` methods raise. -/
def model8 : Model :=
  { mid := 1, transcribe_params := [], methods := ["to_bf16", "close"]
    raises := [("to_bf16", PyExc.other "boom"), ("close", PyExc.other "close failed")]
    has_attention_setter := false, attention_setter_raises := false }

/-- Like `env0` but instantiating the raising model. -/
def env8 : Env := { env0 with from_pretrained := fun _ => model8 }

/-- A loaded state holding the raising model. -/
def cur8 : LoadedModel := mkFresh req0 "/models/m" model8

/-- A model declaring only `local_attention_context`. -/
def model3 : Model :=
  { mid := 2, transcribe_params := ["local_attention_context"], methods := []
    raises := [], has_attention_setter := false, attention_setter_raises := false }

/-- A loaded state holding `model3`. -/
def cur3 : LoadedModel := mkFresh req0 "/models/m" model3

/-- A plain transcribe request. -/
def reqT : TranscribeRequest :=
  { audio_path := "/audio.wav", language := Option.none, translate_to_english := false
    prompt := Option.none, use_word_timestamps := true, chunk_duration := Option.none
    overlap_duration := Option.none, attention := Option.none
    local_attention_context := Option.none }

/-- A transcribe request overriding every tunable parameter. -/
def reqT3 : TranscribeRequest :=
  { reqT with
    language := some "en"
    prompt := some "ctx"
    chunk_duration := some 30
    overlap_duration := some 5
    attention := some Attention.«local»
    local_attention_context := some 64
    translate_to_english := true
    use_word_timestamps := false }

/-- A transcribe request carrying a negative local-attention context (the
transcribe variant has no positivity validator). -/
def req3 : TranscribeRequest := { reqT with local_attention_context := some (-1) }

/-- An environment where no path exists. -/
def env4 : Env := { env0 with path_exists := fun _ => false }

/-- A serialiser that never fails. -/
def ser0 : Ser := { fails := fun _ => false, render := fun _ => "line" }

/-- A decoder that reads every line as a `status` command. -/
def dec0 : Decoder := { parse := fun _ => ParseOutcome.okCmd CommandRequest.statusCmd }

/-- A decoder that reads every line as a `shutdown` command. -/
def dec10 : Decoder := { parse := fun _ => ParseOutcome.okCmd CommandRequest.shutdownCmd }

/-- An attribute-bearing raw result with only a `transcription` attribute. -/
def objT : PyVal := PyVal.obj [("transcription", PyVal.str "hello")]

/-- A raw result whose segment carries a numeric-string `start` (which the
field validation coerces). -/
def segX : PyVal :=
  PyVal.dict [("segments", PyVal.list
    [PyVal.dict [("text", PyVal.str "a"), ("start", PyVal.str "1.5")]])]

/-! ## Helper lemmas -/

theorem lookup_insertArg_self (m : List (String × ArgVal)) (k : String) (v : ArgVal) :
    (insertArg m k v).lookup k = some v := by
  induction m with
  | nil => simp [insertArg, List.lookup]
  | cons a t ih =>
    obtain ⟨k1, v1⟩ := a
    by_cases h1 : k1 = k
    · simp [insertArg, List.lookup, h1]
    · have hb : (k1 == k) = false := beq_eq_false_iff_ne.mpr h1
      have hk : (k == k1) = false := beq_eq_false_iff_ne.mpr (Ne.symm h1)
      simp [insertArg, List.lookup, hb, hk, ih]

theorem lookup_insertArg_ne (m : List (String × ArgVal)) (k k' : String) (v : ArgVal)
    (h : k ≠ k') : (insertArg m k' v).lookup k = m.lookup k := by
  induction m with
  | nil => simp [insertArg, List.lookup, beq_eq_false_iff_ne.mpr h]
  | cons a t ih =>
    obtain ⟨k1, v1⟩ := a
    by_cases h1 : k1 = k'
    · have hk : (k == k') = false := beq_eq_false_iff_ne.mpr h
      simp [insertArg, List.lookup, h1, hk]
    · have hb : (k1 == k') = false := beq_eq_false_iff_ne.mpr h1
      cases hk : (k == k1) <;> simp [insertArg, List.lookup, hb, hk, ih]

theorem lookup_iid_ne (params : List String) (m : List (String × ArgVal)) (k k' : String)
    (v : ArgVal) (h : k ≠ k') :
    (insert_if_declared params m k' v).lookup k = m.lookup k := by
  unfold insert_if_declared
  split
  · exact lookup_insertArg_ne m k k' v h
  · rfl

theorem lookup_iopt_ne (params : List String) (m : List (String × ArgVal)) (k k' : String)
    (ov : Option ArgVal) (h : k ≠ k') :
    (insert_opt params m k' ov).lookup k = m.lookup k := by
  unfold insert_opt
  cases ov
  · rfl
  · exact lookup_iid_ne params m k k' _ h

theorem lookup_iid_self (params : List String) (m : List (String × ArgVal)) (k : String)
    (v : ArgVal) (hp : params.contains k = true) :
    (insert_if_declared params m k v).lookup k = some v := by
  unfold insert_if_declared
  rw [if_pos hp]
  exact lookup_insertArg_self m k v

theorem lookup_iid_undeclared (params : List String) (m : List (String × ArgVal)) (k : String)
    (v : ArgVal) (hp : params.contains k = false) :
    (insert_if_declared params m k v).lookup k = m.lookup k := by
  unfold insert_if_declared
  rw [if_neg (fun hc => by rw [hp] at hc; exact Bool.false_ne_true hc)]

theorem mem_insertArg (m : List (String × ArgVal)) (k : String) (v : ArgVal)
    (kv : String × ArgVal) (hkv : kv ∈ insertArg m k v) : kv ∈ m ∨ kv.1 = k := by
  induction m with
  | nil =>
    right
    rw [List.mem_singleton.mp hkv]
  | cons a t ih =>
    obtain ⟨k1, v1⟩ := a
    by_cases h1 : k1 = k
    · have hb : (k1 == k) = true := beq_iff_eq.mpr h1
      rw [insertArg, if_pos hb] at hkv
      rcases List.mem_cons.mp hkv with h2 | h2
      · right
        rw [h2, h1]
      · exact Or.inl (List.mem_cons_of_mem _ h2)
    · have hb : (k1 == k) = false := beq_eq_false_iff_ne.mpr h1
      rw [insertArg, if_neg (by simp [hb])] at hkv
      rcases List.mem_cons.mp hkv with h2 | h2
      · exact Or.inl (h2 ▸ List.mem_cons_self _ _)
      · rcases ih h2 with h3 | h3
        · exact Or.inl (List.mem_cons_of_mem _ h3)
        · exact Or.inr h3

theorem mem_iid (params : List String) (m : List (String × ArgVal)) (k : String) (v : ArgVal)
    (kv : String × ArgVal) (hkv : kv ∈ insert_if_declared params m k v)
    (hm : ∀ p ∈ m, params.contains p.1 = true) : params.contains kv.1 = true := by
  unfold insert_if_declared at hkv
  by_cases h : params.contains k = true
  · rw [if_pos h] at hkv
    rcases mem_insertArg m k v kv hkv with h1 | h1
    · exact hm kv h1
    · rw [h1]
      exact h
  · rw [if_neg h] at hkv
    exact hm kv hkv

theorem mem_iopt (params : List String) (m : List (String × ArgVal)) (k : String)
    (ov : Option ArgVal) (kv : String × ArgVal) (hkv : kv ∈ insert_opt params m k ov)
    (hm : ∀ p ∈ m, params.contains p.1 = true) : params.contains kv.1 = true := by
  unfold insert_opt at hkv
  cases ov with
  | none => exact hm kv hkv
  | some x => exact mem_iid params m k x kv hkv hm

theorem truthy_none_eq : truthy PyVal.none = false := rfl

theorem truthy_nil_eq : truthy (PyVal.list []) = false := rfl

theorem load_not_reuse (env : Env) (slot : Option LoadedModel) (req : LoadModelRequest)
    (hnr : reuses slot req = false) : load env slot req = load_fresh env slot req := by
  cases slot with
  | none => rfl
  | some cur =>
    have h : reuseCond cur req = false := by simpa [reuses] using hnr
    simp [load, h]

theorem load_fresh_ok (env : Env) (slot : Option LoadedModel) (req : LoadModelRequest)
    (st : LoadedModel) (hok : (load_fresh env slot req).result = Except.ok st) :
    (load_fresh env slot req).slot = some st
  ∧ ∃ p, (resolve_model_path env req).1 = Except.ok p
       ∧ st = mkFresh req p (env.from_pretrained p)
       ∧ Event.instantiateEvent p ∈ (load_fresh env slot req).events := by
  simp only [load_fresh] at hok ⊢
  cases hres : (resolve_model_path env req).1 with
  | error e =>
    simp only [hres] at hok
    exact absurd hok (by simp)
  | ok path =>
    simp only [hres] at hok ⊢
    cases hpr : (configure_precision (env.from_pretrained path) req.precision).1 with
    | error e =>
      simp only [hpr] at hok
      exact absurd hok (by simp)
    | ok u =>
      simp only [hpr] at hok ⊢
      have hst : mkFresh req path (env.from_pretrained path) = st := Except.ok.inj hok
      refine ⟨by simp [hst], path, rfl, hst.symm, by simp⟩

theorem emits_respond (evs : List Event) (r : Response) : emits (respond evs r) = [r] := by
  induction evs with
  | nil => rfl
  | cons e t ih =>
    simpa [respond, emits] using ih

theorem handle_one (env : Env) (slot : Option LoadedModel) (cmd : CommandRequest) :
    ∃ evs r, (handle_command env slot cmd).actions = respond evs r := by
  cases cmd with
  | loadCmd req =>
    simp only [handle_command]
    cases h : (load env slot req).result <;> simp only [h] <;> exact ⟨_, _, rfl⟩
  | unloadCmd =>
    simp only [handle_command]
    cases h : (unload slot).result <;> simp only [h] <;> exact ⟨_, _, rfl⟩
  | transcribeCmd req =>
    simp only [handle_command]
    cases h : (transcribe env slot req).result <;> simp only [h] <;> exact ⟨_, _, rfl⟩
  | statusCmd => exact ⟨_, _, rfl⟩
  | shutdownCmd =>
    simp only [handle_command]
    cases h : (unload slot).result <;> simp only [h] <;> exact ⟨_, _, rfl⟩

theorem mapMExcept_ok_iff (f : α → Except ε β) (l : List α) :
    exOk (mapMExcept f l) = l.all (fun x => exOk (f x)) := by
  induction l with
  | nil => rfl
  | cons x xs ih =>
    simp only [mapMExcept, List.all_cons]
    cases hf : f x with
    | error e => simp [exOk, hf]
    | ok y =>
      cases hm : mapMExcept f xs with
      | error e =>
        rw [hm] at ih
        simp only [hf, hm, exOk, Bool.true_and] at ih ⊢
        exact ih
      | ok ys =>
        rw [hm] at ih
        simp only [hf, hm, exOk, Bool.true_and] at ih ⊢
        exact ih

theorem as_str_field_ok (v : PyVal) : exOk (as_str_field v) = str_ok v := by
  cases v <;> rfl

theorem as_float_field_ok (v : PyVal) : exOk (as_float_field v) = float_ok v := by
  cases v with
  | str s =>
    simp only [as_float_field, float_ok]
    cases h : decimalRat? s <;> simp [h, exOk]
  | _ => rfl

theorem normalise_segment_ok_iff (segment : PyVal) :
    exOk (normalise_segment segment) = seg_ok segment := by
  simp only [normalise_segment, seg_ok]
  generalize extract_segment segment = f
  obtain ⟨t, s, e, toks⟩ := f
  rw [← as_str_field_ok, ← as_float_field_ok s, ← as_float_field_ok e]
  cases h1 : as_str_field t <;> cases h2 : as_float_field s <;>
    cases h3 : as_float_field e <;> simp [exOk]

/-! ## Claim theorems -/

/-- C1: if a model is loaded, `eager_unload` is false, the requested identifier
matches and no mismatching local path is given, `load` returns the existing state
unchanged with no external effects (no resolution, download or instantiation);
in every other case a completed `load` stores a freshly constructed state
(built from the request and a newly instantiated model) in the slot. -/
theorem c1_load_reuse_or_fresh (env : Env) (slot : Option LoadedModel) (req : LoadModelRequest) :
    (∀ cur, slot = some cur → reuseCond cur req = true →
        load env slot req = ⟨Except.ok cur, some cur, []⟩)
  ∧ (reuses slot req = false → ∀ st, (load env slot req).result = Except.ok st →
        (load env slot req).slot = some st
      ∧ ∃ p, st = mkFresh req p (env.from_pretrained p)
           ∧ Event.instantiateEvent p ∈ (load env slot req).events) := by
  constructor
  · intro cur hs hr
    subst hs
    simp [load, hr]
  · intro hnr st hok
    rw [load_not_reuse env slot req hnr] at hok ⊢
    rcases load_fresh_ok env slot req st hok with ⟨h1, p, _, h2, h3⟩
    exact ⟨h1, p, h2, h3⟩

/-- Witness for C1 at concrete inputs: a repeated load of `req0` reuses `st0`
with an empty event trace, and a load into an empty slot stores the freshly
built state. -/
theorem c1_load_reuse_or_fresh_witness :
    load env0 (some st0) req0 = ⟨Except.ok st0, some st0, []⟩
  ∧ ((load env0 Option.none req0).slot = some st0
     ∧ ∃ p, st0 = mkFresh req0 p (env0.from_pretrained p)
          ∧ Event.instantiateEvent p ∈ (load env0 Option.none req0).events) :=
  ⟨(c1_load_reuse_or_fresh env0 (some st0) req0).1 st0 rfl (by decide),
    (c1_load_reuse_or_fresh env0 Option.none req0).2 rfl st0 rfl⟩

/-- C2 counterexample: `st0` is loaded with `bf16`; the same identifier is then
requested with `fp32` and `eager_unload` false, the reuse path is taken, and
`status` afterwards reports `bf16`, not the requested `fp32`. -/
theorem c2_status_counterexample :
    (status (load env0 (some st0) req2).slot).precision = some "bf16"
  ∧ precStr req2.precision = "fp32"
  ∧ ("bf16" : String) ≠ "fp32" :=
  ⟨rfl, rfl, by decide⟩

/-- C2 amended: whenever a load does not hit the reuse path and completes,
`status` immediately after reports exactly the requested identifier, precision
and attention; on the reuse path only the identifier is guaranteed (it
necessarily matches), while precision and attention stay those of the earlier
load. -/
theorem c2_status_after_load (env : Env) (slot : Option LoadedModel) (req : LoadModelRequest)
    (st : LoadedModel) (hnr : reuses slot req = false)
    (hok : (load env slot req).result = Except.ok st) :
    (load env slot req).slot = some st
  ∧ status (load env slot req).slot
      = ⟨some req.model_id, some st.model_path, some (precStr req.precision),
          some (attStr req.attention)⟩ := by
  rw [load_not_reuse env slot req hnr] at hok ⊢
  rcases load_fresh_ok env slot req st hok with ⟨h1, p, _, h2, _⟩
  refine ⟨h1, ?_⟩
  rw [h1, h2]
  rfl

/-- Witness for C2 amended: loading `req0` into an empty slot makes `status`
report its identifier, precision and attention. -/
theorem c2_status_after_load_witness :
    (load env0 Option.none req0).slot = some st0
  ∧ status (load env0 Option.none req0).slot
      = ⟨some req0.model_id, some st0.model_path, some (precStr req0.precision),
          some (attStr req0.attention)⟩ :=
  c2_status_after_load env0 Option.none req0 st0 rfl rfl

/-- C3 counterexample: the transcribe variant carries no positivity validator and
`or None` only filters zero, so a negative request-level context is passed to the
entrypoint — the argument map contains `local_attention_context = -1`, which is
not positive. -/
theorem c3_kwargs_counterexample :
    (build_kwargs cur3 req3).lookup "local_attention_context" = some (ArgVal.int (-1))
  ∧ ¬ (0 : Int) < -1 :=
  ⟨by decide, by decide⟩

/-- C3 amended: the argument map never contains an undeclared key; each non-null
declared request override (language, translate flag, prompt, word-timestamp flag,
chunk/overlap duration) takes precedence over load-time defaults; attention falls
back from the request to the loaded state; `local_attention_context` is included
exactly when declared and the request value is present and nonzero (negative
values included) — there is no fallback to any load-time context value. -/
theorem c3_build_kwargs_shape (cur : LoadedModel) (req : TranscribeRequest) :
    (∀ kv, kv ∈ build_kwargs cur req → cur.transcribe_params.contains kv.1 = true)
  ∧ (∀ s, req.language = some s → cur.transcribe_params.contains "language" = true →
      (build_kwargs cur req).lookup "language" = some (ArgVal.str s))
  ∧ (cur.transcribe_params.contains "translate_to_english" = true →
      (build_kwargs cur req).lookup "translate_to_english"
        = some (ArgVal.bool req.translate_to_english))
  ∧ (∀ s, req.prompt = some s → cur.transcribe_params.contains "prompt" = true →
      (build_kwargs cur req).lookup "prompt" = some (ArgVal.str s))
  ∧ (cur.transcribe_params.contains "use_word_timestamps" = true →
      (build_kwargs cur req).lookup "use_word_timestamps"
        = some (ArgVal.bool req.use_word_timestamps))
  ∧ (∀ q, req.chunk_duration = some q → cur.transcribe_params.contains "chunk_duration" = true →
      (build_kwargs cur req).lookup "chunk_duration" = some (ArgVal.rat q))
  ∧ (∀ q, req.overlap_duration = some q →
      cur.transcribe_params.contains "overlap_duration" = true →
      (build_kwargs cur req).lookup "overlap_duration" = some (ArgVal.rat q))
  ∧ (cur.transcribe_params.contains "attention" = true →
      (build_kwargs cur req).lookup "attention"
        = some (ArgVal.att (match req.attention with
            | some a => a
            | Option.none => cur.attention)))
  ∧ ((build_kwargs cur req).lookup "local_attention_context"
      = match truthy_ctx req.local_attention_context with
        | some c =>
            if cur.transcribe_params.contains "local_attention_context"
            then some (ArgVal.int c) else Option.none
        | Option.none => Option.none) := by
  refine ⟨?_, ?_, ?_, ?_, ?_, ?_, ?_, ?_, ?_⟩
  · intro kv hkv
    simp only [build_kwargs] at hkv
    exact mem_iopt _ _ _ _ kv hkv (fun p1 h1 =>
      mem_iopt _ _ _ _ p1 h1 (fun p2 h2 =>
        mem_iid _ _ _ _ p2 h2 (fun p3 h3 =>
          mem_iopt _ _ _ _ p3 h3 (fun p4 h4 =>
            mem_iid _ _ _ _ p4 h4 (fun p5 h5 =>
              mem_iopt _ _ _ _ p5 h5 (fun p6 h6 =>
                mem_iopt _ _ _ _ p6 h6 (fun p7 h7 =>
                  mem_iid _ _ _ _ p7 h7 (fun p8 h8 =>
                    mem_iid _ _ _ _ p8 h8 (fun p9 h9 =>
                      mem_iid _ _ _ _ p9 h9 (fun p10 h10 =>
                        absurd h10 (List.not_mem_nil p10)))))))))))
  · intro s hs hp
    simp only [build_kwargs]
    rw [lookup_iopt_ne _ _ "language" "overlap_duration" _ (by decide),
        lookup_iopt_ne _ _ "language" "chunk_duration" _ (by decide),
        lookup_iid_ne _ _ "language" "use_word_timestamps" _ (by decide),
        lookup_iopt_ne _ _ "language" "prompt" _ (by decide),
        lookup_iid_ne _ _ "language" "translate_to_english" _ (by decide),
        hs, Option.map_some']
    exact lookup_iid_self _ _ _ _ hp
  · intro hp
    simp only [build_kwargs]
    rw [lookup_iopt_ne _ _ "translate_to_english" "overlap_duration" _ (by decide),
        lookup_iopt_ne _ _ "translate_to_english" "chunk_duration" _ (by decide),
        lookup_iid_ne _ _ "translate_to_english" "use_word_timestamps" _ (by decide),
        lookup_iopt_ne _ _ "translate_to_english" "prompt" _ (by decide)]
    exact lookup_iid_self _ _ _ _ hp
  · intro s hs hp
    simp only [build_kwargs]
    rw [lookup_iopt_ne _ _ "prompt" "overlap_duration" _ (by decide),
        lookup_iopt_ne _ _ "prompt" "chunk_duration" _ (by decide),
        lookup_iid_ne _ _ "prompt" "use_word_timestamps" _ (by decide),
        hs, Option.map_some']
    exact lookup_iid_self _ _ _ _ hp
  · intro hp
    simp only [build_kwargs]
    rw [lookup_iopt_ne _ _ "use_word_timestamps" "overlap_duration" _ (by decide),
        lookup_iopt_ne _ _ "use_word_timestamps" "chunk_duration" _ (by decide)]
    exact lookup_iid_self _ _ _ _ hp
  · intro q hq hp
    simp only [build_kwargs]
    rw [lookup_iopt_ne _ _ "chunk_duration" "overlap_duration" _ (by decide),
        hq, Option.map_some']
    exact lookup_iid_self _ _ _ _ hp
  · intro q hq hp
    simp only [build_kwargs]
    rw [hq, Option.map_some']
    exact lookup_iid_self _ _ _ _ hp
  · intro hp
    simp only [build_kwargs]
    rw [lookup_iopt_ne _ _ "attention" "overlap_duration" _ (by decide),
        lookup_iopt_ne _ _ "attention" "chunk_duration" _ (by decide),
        lookup_iid_ne _ _ "attention" "use_word_timestamps" _ (by decide),
        lookup_iopt_ne _ _ "attention" "prompt" _ (by decide),
        lookup_iid_ne _ _ "attention" "translate_to_english" _ (by decide),
        lookup_iopt_ne _ _ "attention" "language" _ (by decide),
        lookup_iopt_ne _ _ "attention" "local_attention_context" _ (by decide)]
    exact lookup_iid_self _ _ _ _ hp
  · simp only [build_kwargs]
    rw [lookup_iopt_ne _ _ "local_attention_context" "overlap_duration" _ (by decide),
        lookup_iopt_ne _ _ "local_attention_context" "chunk_duration" _ (by decide),
        lookup_iid_ne _ _ "local_attention_context" "use_word_timestamps" _ (by decide),
        lookup_iopt_ne _ _ "local_attention_context" "prompt" _ (by decide),
        lookup_iid_ne _ _ "local_attention_context" "translate_to_english" _ (by decide),
        lookup_iopt_ne _ _ "local_attention_context" "language" _ (by decide)]
    cases hc : truthy_ctx req.local_attention_context with
    | none =>
      simp only [hc, Option.map_none', insert_opt]
      rw [lookup_iid_ne _ _ "local_attention_context" "attention" _ (by decide),
          lookup_iid_ne _ _ "local_attention_context" "overlap_duration" _ (by decide),
          lookup_iid_ne _ _ "local_attention_context" "chunk_duration" _ (by decide)]
      rfl
    | some c =>
      simp only [hc, Option.map_some']
      by_cases hp : cur.transcribe_params.contains "local_attention_context" = true
      · rw [show insert_opt cur.transcribe_params _ "local_attention_context"
              (some (ArgVal.int c)) = insert_if_declared cur.transcribe_params _
              "local_attention_context" (ArgVal.int c) from rfl,
            lookup_iid_self _ _ _ _ hp, if_pos hp]
      · have hp' : cur.transcribe_params.contains "local_attention_context" = false := by
          simpa using hp
        rw [show insert_opt cur.transcribe_params _ "local_attention_context"
              (some (ArgVal.int c)) = insert_if_declared cur.transcribe_params _
              "local_attention_context" (ArgVal.int c) from rfl,
            lookup_iid_undeclared _ _ _ _ hp',
            lookup_iid_ne _ _ "local_attention_context" "attention" _ (by decide),
            lookup_iid_ne _ _ "local_attention_context" "overlap_duration" _ (by decide),
            lookup_iid_ne _ _ "local_attention_context" "chunk_duration" _ (by decide),
            if_neg (fun hc2 => by rw [hp'] at hc2; exact Bool.false_ne_true hc2)]
        rfl

/-- Witness for C3 amended at a fully declared model and a request overriding
every tunable parameter. -/
theorem c3_build_kwargs_shape_witness :
    st0.transcribe_params.contains "language" = true
  ∧ (build_kwargs st0 reqT3).lookup "language" = some (ArgVal.str "en")
  ∧ (build_kwargs st0 reqT3).lookup "translate_to_english" = some (ArgVal.bool true)
  ∧ (build_kwargs st0 reqT3).lookup "prompt" = some (ArgVal.str "ctx")
  ∧ (build_kwargs st0 reqT3).lookup "use_word_timestamps" = some (ArgVal.bool false)
  ∧ (build_kwargs st0 reqT3).lookup "chunk_duration" = some (ArgVal.rat 30)
  ∧ (build_kwargs st0 reqT3).lookup "overlap_duration" = some (ArgVal.rat 5)
  ∧ (build_kwargs st0 reqT3).lookup "attention" = some (ArgVal.att Attention.«local»)
  ∧ (build_kwargs st0 reqT3).lookup "local_attention_context" = some (ArgVal.int 64) := by
  refine ⟨(c3_build_kwargs_shape st0 reqT3).1 ("language", ArgVal.str "en") (by decide),
    (c3_build_kwargs_shape st0 reqT3).2.1 "en" rfl (by decide),
    (c3_build_kwargs_shape st0 reqT3).2.2.1 (by decide),
    (c3_build_kwargs_shape st0 reqT3).2.2.2.1 "ctx" rfl (by decide),
    (c3_build_kwargs_shape st0 reqT3).2.2.2.2.1 (by decide),
    (c3_build_kwargs_shape st0 reqT3).2.2.2.2.2.1 30 rfl (by decide),
    (c3_build_kwargs_shape st0 reqT3).2.2.2.2.2.2.1 5 rfl (by decide),
    (c3_build_kwargs_shape st0 reqT3).2.2.2.2.2.2.2.1 (by decide),
    ?_⟩
  have h := (c3_build_kwargs_shape st0 reqT3).2.2.2.2.2.2.2.2
  simpa using h

/-- C4: `transcribe` against an empty slot makes the dispatcher emit a
`runtime_error` response with a non-empty message, leaving the slot empty; a
loaded slot with a nonexistent audio path yields a `file_not_found` response; in
both cases the trace holds no invocation event (no model invocation happens). -/
theorem c4_transcribe_errors (env : Env) (req : TranscribeRequest) :
    (handle_command env Option.none (CommandRequest.transcribeCmd req)
       = ⟨[Action.emit (Response.errorResp "runtime_error" "No Parakeet model loaded"
            Option.none)], Option.none, false⟩
     ∧ "No Parakeet model loaded" ≠ "")
  ∧ (∀ cur, env.path_exists req.audio_path = false →
      handle_command env (some cur) (CommandRequest.transcribeCmd req)
        = ⟨[Action.emit (Response.errorResp "file_not_found"
             ("Audio path not found: " ++ req.audio_path) Option.none)],
           some cur, false⟩) := by
  refine ⟨⟨rfl, by decide⟩, ?_⟩
  intro cur hp
  simp [handle_command, transcribe, hp, respond, exc_response]

/-- Witness for C4: under an environment where no path exists, both error shapes
are produced at concrete inputs. -/
theorem c4_transcribe_errors_witness :
    handle_command env4 Option.none (CommandRequest.transcribeCmd reqT)
      = ⟨[Action.emit (Response.errorResp "runtime_error" "No Parakeet model loaded"
           Option.none)], Option.none, false⟩
  ∧ handle_command env4 (some st0) (CommandRequest.transcribeCmd reqT)
      = ⟨[Action.emit (Response.errorResp "file_not_found"
           ("Audio path not found: " ++ reqT.audio_path) Option.none)],
         some st0, false⟩ :=
  ⟨(c4_transcribe_errors env4 reqT).1.1, (c4_transcribe_errors env4 reqT).2 st0 rfl⟩

/-- C5 counterexample: a raw result whose `segments` field is a non-iterable
integer makes the normaliser raise (`TypeError` on iteration) instead of
returning a canonical result. -/
theorem c5_normalise_counterexample :
    exOk (normalise_result (PyVal.dict [("segments", PyVal.int 7)])) = false := by
  rfl

/-- C5 amended: the normaliser returns a canonical result — missing fields
degrading to null or empty defaults — whenever the resolved segments value is
iterable (a sequence, string or mapping, or falsy and degrading to the empty
sequence) and every yielded segment has a string-or-missing `text` and
numeric, numeric-string or missing `start`/`end`; it is not total, since a
present field of a non-conforming shape (such as a non-iterable `segments`
value) raises. -/
theorem c5_normalise_completes (result : PyVal) (hws : wellShaped result = true) :
    exOk (normalise_result result) = true := by
  simp only [normalise_result]
  simp only [wellShaped] at hws
  revert hws
  cases hit : pyIter (if truthy (extract_top result).raw_segments
      then (extract_top result).raw_segments else PyVal.list []) with
  | error e =>
    intro hws
    exact absurd hws (by simp)
  | ok items =>
    intro hws
    have hall : items.all seg_ok = true := hws
    have h := mapMExcept_ok_iff normalise_segment items
    simp only [normalise_segment_ok_iff] at h
    have h2 : exOk (mapMExcept normalise_segment items) = true := by
      rw [h]
      exact hall
    cases hm : mapMExcept normalise_segment items with
    | error e =>
      rw [hm] at h2
      simp [exOk] at h2
    | ok segs => simp [hm, exOk]

/-- Witness for C5 amended: a raw result whose segment carries text `"a"` and the
numeric string `"1.5"` as `start` is well shaped (the validation coerces the
string) and the normaliser completes on it. -/
theorem c5_normalise_completes_witness :
    wellShaped segX = true ∧ exOk (normalise_result segX) = true :=
  ⟨by decide, c5_normalise_completes segX (by decide)⟩

/-- C6 counterexample: an attribute-bearing result with only a `transcription`
attribute yields the empty text, while the spec's uniform rule (and the mapping
branch on the same data) yields `"hello"` — the extraction is not uniform. -/
theorem c6_extract_counterexample :
    (extract_top objT).text = PyVal.str ""
  ∧ spec_text objT = PyVal.str "hello"
  ∧ (extract_top (PyVal.dict [("transcription", PyVal.str "hello")])).text
      = PyVal.str "hello"
  ∧ ("" : String) ≠ "hello" :=
  ⟨rfl, rfl, rfl, by decide⟩

/-- C6 amended: segment extraction is uniform across both shapes (`segments`
falling back to `sentences`, falling back to empty, up to the truthiness
resolution the loop applies), and the mapping branch extracts text by the spec's
uniform rule; but an attribute-bearing object takes its text from the `text`
attribute with an empty-string default and no `transcription` fallback. -/
theorem c6_extract_rules (kvs attrs : List (String × PyVal)) :
    (extract_top (PyVal.dict kvs)).text = spec_text (PyVal.dict kvs)
  ∧ (extract_top (PyVal.obj attrs)).text = getattrD (PyVal.obj attrs) "text" (PyVal.str "")
  ∧ resolved_segments (PyVal.dict kvs) = spec_resolved_segments (PyVal.dict kvs)
  ∧ resolved_segments (PyVal.obj attrs) = spec_resolved_segments (PyVal.obj attrs) := by
  refine ⟨rfl, rfl, rfl, ?_⟩
  simp only [resolved_segments, spec_resolved_segments, extract_top, spec_raw_segments,
    field_lookup]
  cases ha : attrs.lookup "segments" with
  | some v =>
    cases hb : attrs.lookup "sentences" with
    | some w =>
      simp only [getattrD, ha, hb, pyOr]
      by_cases hv : truthy v = true
      · simp [hv]
      · have hv' : truthy v = false := by simpa using hv
        by_cases hw : truthy w = true
        · simp [hv', hw]
        · have hw' : truthy w = false := by simpa using hw
          simp [hv', hw']
    | none =>
      simp only [getattrD, ha, hb, pyOr]
      by_cases hv : truthy v = true
      · simp [hv]
      · have hv' : truthy v = false := by simpa using hv
        simp [hv', truthy_none_eq, truthy_nil_eq]
  | none =>
    cases hb : attrs.lookup "sentences" with
    | some w =>
      simp only [getattrD, ha, hb, pyOr]
      by_cases hw : truthy w = true
      · simp [hw, truthy_none_eq, truthy_nil_eq]
      · have hw' : truthy w = false := by simpa using hw
        simp [hw', truthy_none_eq, truthy_nil_eq]
    | none => simp [getattrD, ha, hb, pyOr, truthy_none_eq, truthy_nil_eq]

theorem load_fresh_flip (env : Env) (slot : Option LoadedModel) (req : LoadModelRequest) :
    exOk (load_fresh (flipEnv env) slot req).result = exOk (load_fresh env slot req).result := by
  have hres : resolve_model_path (flipEnv env) req = resolve_model_path env req := rfl
  simp only [load_fresh, hres]
  cases h1 : (resolve_model_path env req).1 with
  | error e => rfl
  | ok path =>
    have hp : configure_precision ((flipEnv env).from_pretrained path) req.precision
        = configure_precision (env.from_pretrained path) req.precision := rfl
    simp only [hp]
    cases h2 : (configure_precision (env.from_pretrained path) req.precision).1 <;> rfl

/-- C7 counterexample: a model with a release capability is loaded, yet the
external-signal shutdown path performs no action at all — no release is invoked
before the process exits. -/
theorem c7_signal_counterexample :
    (graceful_shutdown_signal (some st0)).actions = []
  ∧ (graceful_shutdown_signal (some st0)).slot = some st0
  ∧ st0.inst.methods.contains "close" = true :=
  ⟨rfl, rfl, by decide⟩

/-- C7 amended: a shutdown command performs the unload (the release capability is
invoked when the handle is callable) strictly before the final `ok` response is
emitted, and exits only when the unload did not raise; an external
interrupt/termination signal exits the read loop without performing any unload. -/
theorem c7_shutdown_paths (env : Env) (slot : Option LoadedModel) :
    (exOk (unload slot).result = true →
      handle_command env slot CommandRequest.shutdownCmd
        = ⟨respond (unload slot).events (Response.okResp "shutdown" []),
            (unload slot).slot, true⟩)
  ∧ (∀ cur, slot = some cur → cur.inst.methods.contains "close" = true →
      Event.closeEvent ∈ (unload slot).events)
  ∧ graceful_shutdown_signal slot = ⟨[], slot, true⟩ := by
  refine ⟨?_, ?_, rfl⟩
  · intro hok
    simp only [handle_command]
    cases h : (unload slot).result with
    | ok u => rfl
    | error e =>
      rw [h] at hok
      exact absurd hok (by simp [exOk])
  · intro cur hs hm
    subst hs
    simp only [unload]
    rw [if_pos hm]
    cases hl : cur.inst.raises.lookup "close" <;> simp

/-- Witness for C7 amended: shutting down with `st0` loaded releases the handle,
emits the `ok` after the release event, and exits. -/
theorem c7_shutdown_paths_witness :
    handle_command env0 (some st0) CommandRequest.shutdownCmd
      = ⟨respond (unload (some st0)).events (Response.okResp "shutdown" []),
          (unload (some st0)).slot, true⟩
  ∧ Event.closeEvent ∈ (unload (some st0)).events :=
  ⟨(c7_shutdown_paths env0 (some st0)).1 rfl,
    (c7_shutdown_paths env0 (some st0)).2.1 st0 rfl (by decide)⟩

/-- C8 counterexample: a raising precision method makes `load` fail instead of
being absorbed, and a raising release capability makes `unload` report the
exception (though the slot is cleared). -/
theorem c8_besteffort_counterexample :
    (load env8 Option.none req0).result = Except.error (PyExc.other "boom")
  ∧ unload (some cur8)
      = ⟨Except.error (PyExc.other "close failed"), Option.none, [Event.closeEvent]⟩ :=
  ⟨rfl, rfl⟩

/-- C8 amended: only attention configuration is protected by `try`/`except` — a
raising attention setter never changes whether `load` completes; a raising
precision method propagates and fails the load (only a missing precision
capability is a silent no-op); a raising release capability still clears the
slot but propagates, so `unload` reports the exception rather than success. -/
theorem c8_besteffort_scopes (env : Env) (slot : Option LoadedModel) (req : LoadModelRequest) :
    exOk (load (flipEnv env) slot req).result = exOk (load env slot req).result
  ∧ (∀ path n exc, reuses slot req = false →
      (resolve_model_path env req).1 = Except.ok path →
      (precision_method_names req.precision).find?
          (fun x => (env.from_pretrained path).methods.contains x) = some n →
      (env.from_pretrained path).raises.lookup n = some exc →
      (load env slot req).result = Except.error exc)
  ∧ (∀ cur exc, slot = some cur → cur.inst.methods.contains "close" = true →
      cur.inst.raises.lookup "close" = some exc →
      unload slot = ⟨Except.error exc, Option.none, [Event.closeEvent]⟩) := by
  refine ⟨?_, ?_, ?_⟩
  · cases slot with
    | none => exact load_fresh_flip env Option.none req
    | some cur =>
      by_cases hr : reuseCond cur req = true
      · simp [load, hr]
      · have hr' : reuseCond cur req = false := by simpa using hr
        simp only [load]
        rw [if_neg (fun hc => by rw [hr'] at hc; exact Bool.false_ne_true hc),
            if_neg (fun hc => by rw [hr'] at hc; exact Bool.false_ne_true hc)]
        exact load_fresh_flip env (some cur) req
  · intro path n exc hnr hres hfind hlook
    rw [load_not_reuse env slot req hnr]
    simp only [load_fresh, hres]
    have hpr : (configure_precision (env.from_pretrained path) req.precision).1
        = Except.error exc := by
      simp only [configure_precision, hfind, hlook]
    simp only [hpr]
  · intro cur exc hs hm hl
    subst hs
    simp only [unload]
    rw [if_pos hm, hl]

/-- Witness for C8 amended at concrete inputs: the raising-setter flip leaves the
load outcome unchanged; `env8`'s raising `to_bf16` fails the load with its
exception; `cur8`'s raising `close` clears the slot yet reports the exception. -/
theorem c8_besteffort_scopes_witness :
    exOk (load (flipEnv env0) Option.none req0).result
      = exOk (load env0 Option.none req0).result
  ∧ (load env8 Option.none req0).result = Except.error (PyExc.other "boom")
  ∧ unload (some cur8)
      = ⟨Except.error (PyExc.other "close failed"), Option.none, [Event.closeEvent]⟩ :=
  ⟨(c8_besteffort_scopes env0 Option.none req0).1,
    (c8_besteffort_scopes env8 Option.none req0).2.1 "/models/m" "to_bf16"
      (PyExc.other "boom") rfl rfl rfl rfl,
    (c8_besteffort_scopes env8 (some cur8) req0).2.2 cur8 (PyExc.other "close failed")
      rfl rfl rfl⟩

/-- C9: the writer emits exactly one line per response — the rendered response
when it serialises, else the rendered fixed `serialisation_error` fallback — and
every non-blank input line produces exactly one output line, provided only that
the fixed fallback response itself serialises. -/
theorem c9_one_line_out (ser : Ser) (hf : ser.fails fallback_response = false) :
    (∀ r, ser.fails r = false → write_response ser r = [ser.render r])
  ∧ (∀ r, ser.fails r = true → write_response ser r = [ser.render fallback_response])
  ∧ (∀ r, (write_response ser r).length = 1)
  ∧ (∀ env dec slot raw, pyStrip raw ≠ "" →
      ((process_line env dec ser slot raw).lines).length = 1) := by
  have h1 : ∀ r, ser.fails r = false → write_response ser r = [ser.render r] := by
    intro r hr
    simp [write_response, hr]
  have h2 : ∀ r, ser.fails r = true → write_response ser r = [ser.render fallback_response] := by
    intro r hr
    simp [write_response, hr, hf]
  have h3 : ∀ r, (write_response ser r).length = 1 := by
    intro r
    cases hr : ser.fails r
    · rw [h1 r hr]
      rfl
    · rw [h2 r hr]
      rfl
  refine ⟨h1, h2, h3, ?_⟩
  intro env dec slot raw hraw
  have hb : (pyStrip raw == "") = false := beq_eq_false_iff_ne.mpr hraw
  simp only [process_line]
  rw [if_neg (fun hc => by rw [hb] at hc; exact Bool.false_ne_true hc)]
  cases hp : dec.parse (pyStrip raw) with
  | parseFailure m => simp [h3]
  | validationFailure m => simp [h3]
  | okCmd cmd =>
    rcases handle_one env slot cmd with ⟨evs, r, hr⟩
    simp only [hr, emits_respond]
    simp [h3]

/-- Witness for C9 with a never-failing serialiser and a `status` line. -/
theorem c9_one_line_out_witness :
    ser0.fails fallback_response = false
  ∧ write_response ser0 fallback_response = [ser0.render fallback_response]
  ∧ (write_response ser0 (Response.okResp "shutdown" [])).length = 1
  ∧ ((process_line env0 dec0 ser0 Option.none "status").lines).length = 1 :=
  ⟨rfl, (c9_one_line_out ser0 rfl).1 fallback_response rfl,
    (c9_one_line_out ser0 rfl).2.2.1 (Response.okResp "shutdown" []),
    (c9_one_line_out ser0 rfl).2.2.2 env0 dec0 Option.none "status" (by decide)⟩

/-- C10: if the loaded handle's release capability raises while a shutdown
command is handled, the dispatcher emits an error response (never the `ok`), the
process does not exit (`SystemExit` is not reached), the loop therefore
continues, and the slot is nevertheless cleared. -/
theorem c10_shutdown_close_failure (env : Env) (cur : LoadedModel) (exc : PyExc)
    (hm : cur.inst.methods.contains "close" = true)
    (hr : cur.inst.raises.lookup "close" = some exc) :
    handle_command env (some cur) CommandRequest.shutdownCmd
      = ⟨[Action.ev Event.closeEvent, Action.emit (exc_response exc)], Option.none, false⟩
  ∧ (∃ code msg details, exc_response exc = Response.errorResp code msg details)
  ∧ (∀ dec ser raw, pyStrip raw ≠ "" →
      dec.parse (pyStrip raw) = ParseOutcome.okCmd CommandRequest.shutdownCmd →
      (process_line env dec ser (some cur) raw).exit = false) := by
  have hu : unload (some cur) = ⟨Except.error exc, Option.none, [Event.closeEvent]⟩ := by
    simp only [unload]
    rw [if_pos hm, hr]
  have hh : handle_command env (some cur) CommandRequest.shutdownCmd
      = ⟨[Action.ev Event.closeEvent, Action.emit (exc_response exc)], Option.none, false⟩ := by
    simp only [handle_command, hu]
    rfl
  refine ⟨hh, ?_, ?_⟩
  · cases exc <;> exact ⟨_, _, _, rfl⟩
  · intro dec ser raw hraw hp
    have hb : (pyStrip raw == "") = false := beq_eq_false_iff_ne.mpr hraw
    simp only [process_line]
    rw [if_neg (fun hc => by rw [hb] at hc; exact Bool.false_ne_true hc)]
    simp [hp, hh]

/-- Witness for C10: `cur8`'s raising `close` under a shutdown command yields the
error response, a cleared slot, and a loop that keeps reading. -/
theorem c10_shutdown_close_failure_witness :
    handle_command env0 (some cur8) CommandRequest.shutdownCmd
      = ⟨[Action.ev Event.closeEvent, Action.emit (exc_response (PyExc.other "close failed"))],
          Option.none, false⟩
  ∧ (∃ code msg details,
      exc_response (PyExc.other "close failed") = Response.errorResp code msg details)
  ∧ (process_line env0 dec10 ser0 (some cur8) "shutdown").exit = false := by
  obtain ⟨h1, h2, h3⟩ :=
    c10_shutdown_close_failure env0 cur8 (PyExc.other "close failed") rfl rfl
  exact ⟨h1, h2, h3 dec10 ser0 "shutdown" (by decide) rfl⟩

end Sidecar
